import Mathlib

/-!
Shallow embedding of src/whisper_bridge.py (OpenWispr whisper bridge),
covering the download-progress monitor, the size oracle, the download
coordinator and the cache inspection / deletion helpers.

Modelling conventions:
* Python floats are modelled by exact rationals; byte counts by naturals.
* Wall-clock instants (time.time()) are rational inputs to each loop tick.
* The artifact file is written concurrently by the external fetch, so each
  loop iteration's observation of the file (os.path.exists + os.path.getsize,
  lines 176-178) is an input sample: none models a missing file, some sz a
  file of sz bytes.
* The source rounds percentage to one decimal and speed to two decimals in
  the emitted JSON record (round(percentage, 1), round(speed_mbps, 2),
  lines 203-204) and also reports size_mb rounded.  That rounding is display
  formatting of the emitted record only and feeds into no control decision
  (the throttle comparison on line 196 and the stored last_progress_update
  on line 208 use the unrounded percentage), so the embedding records the
  unrounded values and omits the derived size_mb field.
* In rational arithmetic x / 0 = 0; the only place a division by zero can
  arise (percentage with expected_size = 0) is exactly the case the source
  short-circuits to 0 on line 193, and the two conventions agree.
-/

namespace WhisperBridge

/-- Reason the polling loop of monitor_download_progress exits on its own:
the completion break on lines 210-211 and the stagnation break on lines
213-215 of src/whisper_bridge.py. -/
inductive StopReason where
  | complete
  | stalledDone
  deriving DecidableEq, Repr

/-- Loop-carried variables of monitor_download_progress (lines 169-172):
last_size, last_update_time, speed_samples and last_progress_update.
Note that last_progress_update is initialised to 0 and is assigned the
emitted percentage on line 208. -/
structure MonState where
  lastSize : Nat
  lastUpdateTime : Rat
  speedSamples : List Rat
  lastProgressUpdate : Rat
  deriving DecidableEq, Repr

/-- Fields of the progress record printed on line 207 (unrounded, see the
file header). -/
structure ProgressData where
  downloadedBytes : Nat
  totalBytes : Nat
  percentage : Rat
  speedMbps : Rat
  deriving DecidableEq, Repr

/-- Whether the loop continues with an updated state or exits via one of
its break statements. -/
inductive Next where
  | cont (s : MonState)
  | stop (r : StopReason)
  deriving DecidableEq, Repr

/-- Observable outcome of one iteration of the loop body: the optional
emitted progress record, the iteration's speed_mbps and percentage local
variables, the speed_samples list after the iteration and the control
outcome. -/
structure TickOutput where
  emitted : Option ProgressData
  speedMbps : Rat
  percentage : Rat
  samplesAfter : List Rat
  next : Next
  deriving DecidableEq, Repr

/-- Bounded trailing window update of lines 188-190: append the new sample,
then pop the front element (speed_samples.pop(0)) when the window holds
more than 10 entries. -/
def windowPush (samples : List Rat) (x : Rat) : List Rat :=
  if (samples ++ [x]).length > 10 then (samples ++ [x]).drop 1 else samples ++ [x]

/-- Instantaneous throughput of lines 185-186: bytes_per_second times 8,
scaled by 1024 * 1024 to the script's Mbps unit. -/
def instMbps (lastSize currentSize : Nat) (timeDiff : Rat) : Rat :=
  ((currentSize : Rat) - (lastSize : Rat)) / timeDiff * 8 / (1024 * 1024)

/-- Speed computation of lines 183-191.  A sample is produced only when
last_size > 0 and time_diff > 0 and current_size > last_size; it is pushed
into the bounded window and speed_mbps becomes the window's arithmetic
mean.  Otherwise speed_mbps stays 0 and the window is untouched.  Returns
the speed_mbps value and the speed_samples list after the iteration. -/
def speedStep (s : MonState) (t : Rat) (currentSize : Nat) : Rat × List Rat :=
  if 0 < s.lastSize ∧ 0 < t - s.lastUpdateTime ∧ s.lastSize < currentSize then
    ((windowPush s.speedSamples (instMbps s.lastSize currentSize (t - s.lastUpdateTime))).sum /
      (((windowPush s.speedSamples (instMbps s.lastSize currentSize (t - s.lastUpdateTime))).length : Rat)),
     windowPush s.speedSamples (instMbps s.lastSize currentSize (t - s.lastUpdateTime)))
  else (0, s.speedSamples)

/-- Percentage of line 193: the raw ratio times 100 when expected_size is
positive (0 otherwise), clamped from above by 100. -/
def percentageOf (currentSize expected : Nat) : Rat :=
  min (if 0 < expected then (currentSize : Rat) / (expected : Rat) * 100 else 0) 100

/-- Emission condition of lines 195-196, exactly as written in the source:
current_time - last_progress_update > 0.5 or
abs(percentage - last_progress_update) > 1.0.  Note that the source stores
the last emitted PERCENTAGE in last_progress_update (line 208), yet the
first disjunct subtracts it from the current TIME. -/
def emitNow (s : MonState) (t pct : Rat) : Bool :=
  decide (t - s.lastProgressUpdate > 1 / 2) || decide (|pct - s.lastProgressUpdate| > 1)

/-- Control outcome of lines 210-218: break with COMPLETE when
current_size >= expected_size * 0.95; otherwise break with STALLED_DONE
when current_size == last_size and current_time - last_update_time > 10
and current_size > expected_size * 0.9; otherwise continue with the
updated state (last_size and last_update_time are refreshed on lines
217-218 of every non-breaking iteration). -/
def nextOf (expected : Nat) (s : MonState) (t : Rat) (currentSize : Nat)
    (s2 : MonState) : Next :=
  if (currentSize : Rat) ≥ (expected : Rat) * (95 / 100) then Next.stop StopReason.complete
  else if currentSize = s.lastSize ∧ t - s.lastUpdateTime > 10 ∧
      (currentSize : Rat) > (expected : Rat) * (9 / 10) then Next.stop StopReason.stalledDone
  else Next.cont s2

/-- One iteration of the polling loop body (lines 176-218), given the
iteration's clock reading t and the observation of the artifact file.
A missing file reads as size 0 (lines 176-178).  The stop_event test of
line 174 and the exception swallowing of lines 220-221 do not arise in an
uncancelled, error-free run, which is what the claims quantify over. -/
def stepTick (expected : Nat) (s : MonState) (t : Rat) (obs : Option Nat) : TickOutput :=
  let currentSize : Nat := obs.getD 0
  let ss := speedStep s t currentSize
  let pct := percentageOf currentSize expected
  let emitted : Option ProgressData :=
    if emitNow s t pct then
      some ⟨currentSize, expected, pct, if 0 < ss.1 then ss.1 else 0⟩
    else none
  let lpu : Rat := if emitNow s t pct then pct else s.lastProgressUpdate
  ⟨emitted, ss.1, pct, ss.2, nextOf expected s t currentSize ⟨currentSize, t, ss.2, lpu⟩⟩

/-- Outcome of a run of the polling loop: the emitted progress records in
order, the reason the loop exited (none when the observation samples were
exhausted with the loop still polling) and the loop state at the end. -/
structure RunResult where
  events : List ProgressData
  result : Option StopReason
  final : MonState
  deriving DecidableEq, Repr

/-- Run the loop body over a list of (clock reading, file observation)
samples starting from state s, stopping early when a break fires.  On a
breaking iteration the record emitted by that iteration (emission happens
on line 207, before the breaks) is included. -/
def runFrom (expected : Nat) (s : MonState) : List (Rat × Option Nat) → RunResult
  | [] => ⟨[], none, s⟩
  | (t, obs) :: rest =>
    match (stepTick expected s t obs).next with
    | Next.stop r => ⟨(stepTick expected s t obs).emitted.toList, some r, s⟩
    | Next.cont s2 =>
      ⟨(stepTick expected s t obs).emitted.toList ++ (runFrom expected s2 rest).events,
       (runFrom expected s2 rest).result, (runFrom expected s2 rest).final⟩

/-- Initial loop state of lines 169-172: last_size 0, last_update_time the
clock at entry, empty sample window, last_progress_update 0. -/
def initState (t0 : Rat) : MonState := ⟨0, t0, [], 0⟩

/-- The polling loop of monitor_download_progress started at clock t0 and
fed the given observation samples. -/
def runMonitor (expected : Nat) (t0 : Rat) (ticks : List (Rat × Option Nat)) : RunResult :=
  runFrom expected (initState t0) ticks

/-- Filesystem as the script can observe and mutate it: a partial map from
file paths to sizes and a set of directories. -/
structure FileSystem where
  files : String → Option Nat
  dirs : String → Bool

/-- monitor_download_progress (lines 161-223): the function resolves the
artifact path from the external whisper table, creates the cache directory
(os.makedirs(cache_dir, exist_ok=True), line 167) and then runs the
polling loop.  The loop body only reads the artifact file (os.path.exists
and os.path.getsize, lines 177-178) and prints progress lines to stderr;
those per-iteration reads are the ticks input.  Returns the filesystem as
left by the function together with the loop outcome. -/
def monitor_download_progress (cacheDir : String) (fsys : FileSystem)
    (expected : Nat) (t0 : Rat) (ticks : List (Rat × Option Nat)) :
    FileSystem × RunResult :=
  let fsys2 : FileSystem :=
    ⟨fsys.files, fun d => if d = cacheDir then true else fsys.dirs d⟩
  (fsys2, runMonitor expected t0 ticks)

/-- Outcome of the requests.head probe of lines 143-147 as the code can see
it: error covers every exception raised inside the try (timeout, network
failure, a model name missing from the external whisper table); response
carries the HTTP status code and the content-length header as its raw
string, none when the header is absent. -/
inductive ProbeOutcome where
  | error
  | response (status : Nat) (contentLength : Option String)
  deriving DecidableEq, Repr

/-- Static fallback table of lines 151-158 together with the dict.get
default of line 159 (100 MB). -/
def approximate_sizes (model : String) : Int :=
  if model = "tiny" then 39 * 1024 * 1024
  else if model = "base" then 74 * 1024 * 1024
  else if model = "small" then 244 * 1024 * 1024
  else if model = "medium" then 769 * 1024 * 1024
  else if model = "large" then 1550 * 1024 * 1024
  else if model = "turbo" then 809 * 1024 * 1024
  else 100 * 1024 * 1024

/-- get_expected_model_size (lines 139-159).  A 200 response whose
content-length string is non-empty returns int(content_length); the Python
truthiness test on the header string (line 146) lets the string "0"
through.  String.toInt? stands in for int(): on canonical decimal strings
the two agree, and a string int() rejects raises inside the try and lands
in the fallback, as toInt? = none does here.  Every other outcome falls
back to approximate_sizes. -/
def get_expected_model_size (model : String) (probe : ProbeOutcome) : Int :=
  match probe with
  | ProbeOutcome.error => approximate_sizes model
  | ProbeOutcome.response status contentLength =>
    if status = 200 then
      match contentLength with
      | some cl =>
        if cl ≠ "" then
          match cl.toInt? with
          | some n => n
          | none => approximate_sizes model
        else approximate_sizes model
      | none => approximate_sizes model
    else approximate_sizes model

/-- Result dictionary of download_model (lines 238-245, 283-290, 294-299,
302-307).  Keys absent from a branch's dictionary are modelled by none;
the derived size_mb display field is omitted (see the file header). -/
structure DownloadResult where
  model : String
  downloaded : Bool
  path : Option String
  size_bytes : Option Nat
  success : Bool
  error : Option String
  deriving DecidableEq, Repr

/-- How the blocking whisper.load_model call of line 259 returns: normally,
by KeyboardInterrupt, or by some other exception carrying str(e). -/
inductive FetchOutcome where
  | ok
  | keyboardInterrupt
  | error (msg : String)
  deriving DecidableEq, Repr

/-- download_model's result together with which side activities the call
performed: whether the monitor thread was started (line 256), whether the
size probe ran (line 248) and whether the terminal complete event was
printed (line 281). -/
structure DownloadOutcome where
  result : DownloadResult
  monitorSpawned : Bool
  probePerformed : Bool
  completionEmitted : Bool
  deriving DecidableEq, Repr

/-- download_model (lines 225-307).  modelFile is the artifact path the
function resolves on lines 232-234 from the external whisper URL table;
files is the filesystem at entry; fetch is how the blocking load of line
259 returns; filesAfter is the filesystem when the function re-stats the
artifact on lines 269-271 (the fetch wrote it concurrently).  When the
artifact already exists the function returns on lines 236-245 before the
probe and before the thread start; otherwise it probes, spawns the
monitor, runs the fetch and converts any exception into a structured
result (lines 292-307). -/
def download_model (model modelFile : String) (files : String → Option Nat)
    (probe : ProbeOutcome) (fetch : FetchOutcome)
    (filesAfter : String → Option Nat) : DownloadOutcome :=
  match files modelFile with
  | some fileSize =>
    ⟨⟨model, true, some modelFile, some fileSize, true, none⟩, false, false, false⟩
  | none =>
    let _expected := get_expected_model_size model probe
    match fetch with
    | FetchOutcome.ok =>
      let finalSize := (filesAfter modelFile).getD 0
      ⟨⟨model, true, some modelFile, some finalSize, true, none⟩, true, true, true⟩
    | FetchOutcome.keyboardInterrupt =>
      ⟨⟨model, false, none, none, false, some "Download interrupted by user"⟩,
       true, true, false⟩
    | FetchOutcome.error msg =>
      ⟨⟨model, false, none, none, false, some msg⟩, true, true, false⟩

/-- Result dictionary of check_model_status (lines 309-337); the error
branch of lines 332-337 is unreachable for a model present in the external
whisper table, which is what the claims quantify over. -/
structure StatusResult where
  model : String
  downloaded : Bool
  path : Option String
  size_bytes : Option Nat
  success : Bool
  error : Option String
  deriving DecidableEq, Repr

/-- check_model_status (lines 309-337): stat the resolved artifact path and
report its presence and size.  Reads only. -/
def check_model_status (model modelFile : String)
    (files : String → Option Nat) : StatusResult :=
  match files modelFile with
  | some sz => ⟨model, true, some modelFile, some sz, true, none⟩
  | none => ⟨model, false, none, none, true, none⟩

/-- Result dictionary of delete_model (lines 364-377). -/
structure DeleteResult where
  model : String
  deleted : Bool
  freed_bytes : Option Nat
  success : Bool
  error : Option String
  deriving DecidableEq, Repr

/-- delete_model (lines 354-384): remove the artifact if present, returning
the freed byte count, else report the structured "Model not found" failure.
Returns the result together with the filesystem after the call. -/
def delete_model (model modelFile : String) (files : String → Option Nat) :
    DeleteResult × (String → Option Nat) :=
  match files modelFile with
  | some sz =>
    (⟨model, true, some sz, true, none⟩,
     fun p => if p = modelFile then none else files p)
  | none => (⟨model, false, none, false, some "Model not found"⟩, files)

/-! Projection lemmas for the loop body, all definitional. -/

theorem stepTick_emitted (expected : Nat) (s : MonState) (t : Rat) (obs : Option Nat) :
    (stepTick expected s t obs).emitted =
      if emitNow s t (percentageOf (obs.getD 0) expected) then
        some ⟨obs.getD 0, expected, percentageOf (obs.getD 0) expected,
          if 0 < (speedStep s t (obs.getD 0)).1 then (speedStep s t (obs.getD 0)).1 else 0⟩
      else none := rfl

theorem stepTick_speedMbps (expected : Nat) (s : MonState) (t : Rat) (obs : Option Nat) :
    (stepTick expected s t obs).speedMbps = (speedStep s t (obs.getD 0)).1 := rfl

theorem stepTick_samplesAfter (expected : Nat) (s : MonState) (t : Rat) (obs : Option Nat) :
    (stepTick expected s t obs).samplesAfter = (speedStep s t (obs.getD 0)).2 := rfl

theorem stepTick_percentage (expected : Nat) (s : MonState) (t : Rat) (obs : Option Nat) :
    (stepTick expected s t obs).percentage = percentageOf (obs.getD 0) expected := rfl

theorem stepTick_next (expected : Nat) (s : MonState) (t : Rat) (obs : Option Nat) :
    (stepTick expected s t obs).next =
      nextOf expected s t (obs.getD 0)
        ⟨obs.getD 0, t, (speedStep s t (obs.getD 0)).2,
          if emitNow s t (percentageOf (obs.getD 0) expected) then
            percentageOf (obs.getD 0) expected
          else s.lastProgressUpdate⟩ := rfl

/-! Facts about the percentage computation of line 193. -/

theorem percentageOf_eq_min (cs e : Nat) :
    percentageOf cs e = min 100 ((cs : Rat) / (e : Rat) * 100) := by
  unfold percentageOf
  by_cases h : 0 < e
  · rw [if_pos h, min_comm]
  · have he : e = 0 := Nat.eq_zero_of_not_pos h
    subst he
    rw [if_neg h]
    norm_num

theorem percentageOf_nonneg (cs e : Nat) : 0 ≤ percentageOf cs e := by
  unfold percentageOf
  refine le_min ?_ (by norm_num)
  split
  · positivity
  · exact le_refl 0

theorem percentageOf_le_100 (cs e : Nat) : percentageOf cs e ≤ 100 := min_le_right _ _

/-- Every progress record a run emits carries a percentage in [0, 100] and
a non-negative speed (the emitted speed field is the speed_mbps variable
gated by the positivity test of line 204). -/
theorem runFrom_events_bounds (expected : Nat) :
    ∀ (ticks : List (Rat × Option Nat)) (s : MonState) (ev : ProgressData),
      ev ∈ (runFrom expected s ticks).events →
      0 ≤ ev.percentage ∧ ev.percentage ≤ 100 ∧ 0 ≤ ev.speedMbps := by
  intro ticks
  induction ticks with
  | nil =>
    intro s ev hev
    simp [runFrom] at hev
  | cons head rest ih =>
    obtain ⟨t, obs⟩ := head
    intro s ev hev
    have hemit : ∀ d : ProgressData, (stepTick expected s t obs).emitted = some d →
        0 ≤ d.percentage ∧ d.percentage ≤ 100 ∧ 0 ≤ d.speedMbps := by
      intro d hd
      rw [stepTick_emitted] at hd
      split at hd
      · injection hd with hd
        subst hd
        refine ⟨percentageOf_nonneg _ _, percentageOf_le_100 _ _, ?_⟩
        dsimp only
        rcases lt_or_ge 0 ((speedStep s t (obs.getD 0)).1) with hsp | hsp
        · rw [if_pos hsp]
          exact le_of_lt hsp
        · rw [if_neg (not_lt_of_ge hsp)]
      · exact absurd hd (by simp)
    simp only [runFrom] at hev
    rcases hnext : (stepTick expected s t obs).next with s2 | r
    · rw [hnext] at hev
      dsimp only at hev
      rcases List.mem_append.mp hev with hl | hr
      · simp only [Option.mem_toList, Option.mem_def] at hl
        exact hemit ev hl
      · exact ih s2 ev hr
    · rw [hnext] at hev
      dsimp only at hev
      simp only [Option.mem_toList, Option.mem_def] at hev
      exact hemit ev hev

/-- C4: the percentage the monitor computes on every iteration equals
min(100, downloaded / expected * 100) and lies in [0, 100] for any
sequence of non-negative size samples, including samples exceeding
expected_size (line 193); consequently every progress record emitted over
any run carries a percentage in [0, 100]. -/
theorem percentage_clamped_in_range :
    (∀ currentSize expected : Nat,
        percentageOf currentSize expected =
          min 100 ((currentSize : Rat) / (expected : Rat) * 100) ∧
        0 ≤ percentageOf currentSize expected ∧
        percentageOf currentSize expected ≤ 100) ∧
    (∀ (expected : Nat) (t0 : Rat) (ticks : List (Rat × Option Nat)) (ev : ProgressData),
        ev ∈ (runMonitor expected t0 ticks).events →
        0 ≤ ev.percentage ∧ ev.percentage ≤ 100) := by
  constructor
  · intro cs e
    exact ⟨percentageOf_eq_min cs e, percentageOf_nonneg cs e, percentageOf_le_100 cs e⟩
  · intro expected t0 ticks ev hev
    have h := runFrom_events_bounds expected ticks (initState t0) ev hev
    exact ⟨h.1, h.2.1⟩

/-- Witness for C4: a concrete run whose single sample exceeds
expected_size emits exactly one record, whose percentage is clamped to
100; the bounds are obtained from the theorem at that record. -/
theorem percentage_clamped_in_range_witness :
    (runMonitor 100 0 [(1, some 150)]).events = [⟨150, 100, 100, 0⟩] ∧
    0 ≤ (ProgressData.mk 150 100 100 0).percentage ∧
    (ProgressData.mk 150 100 100 0).percentage ≤ 100 := by
  have hev : (runMonitor 100 0 [(1, some 150)]).events = [⟨150, 100, 100, 0⟩] := by
    with_unfolding_all rfl
  have hmem : (⟨150, 100, 100, 0⟩ : ProgressData) ∈ (runMonitor 100 0 [(1, some 150)]).events := by
    rw [hev]
    exact List.mem_singleton_self _
  exact ⟨hev, percentage_clamped_in_range.2 100 0 [(1, some 150)] _ hmem⟩

/-- C3: whenever an iteration observes a size of at least 95 percent of
expected_size, the loop exits with COMPLETE at that very iteration (lines
210-211), whatever the current state; concretely, with expected_size
74 MB (77594624 bytes) and samples 10 MB, 40 MB, 70.4 MB on three ticks
the loop is still polling after two ticks and completes exactly at the
third, and a run that reaches 96 percent of a 1000-byte expectation and
then stalls reaches COMPLETE without any cancellation. -/
theorem complete_at_95_threshold :
    (∀ (expected : Nat) (s : MonState) (t : Rat) (obs : Option Nat),
        (((obs.getD 0 : Nat) : Rat) ≥ (expected : Rat) * (95 / 100)) →
        (stepTick expected s t obs).next = Next.stop StopReason.complete) ∧
    (runMonitor 77594624 0 [(1/2, some 10485760), (1, some 41943040)]).result = none ∧
    (runMonitor 77594624 0
        [(1/2, some 10485760), (1, some 41943040), (3/2, some 73819750)]).result =
      some StopReason.complete ∧
    (runMonitor 1000 0
        ([(1/2, some 400), (1, some 960)] ++
          (List.range 22).map fun k => ((k : Rat) / 2 + 3 / 2, some 960))).result =
      some StopReason.complete := by
  refine ⟨?_, by with_unfolding_all rfl, by with_unfolding_all rfl, by with_unfolding_all rfl⟩
  intro expected s t obs h
  rw [stepTick_next]
  unfold nextOf
  rw [if_pos h]

/-- Witness for C3: the 95-percent hypothesis discharged at a concrete
state and sample (95 of 100 expected bytes). -/
theorem complete_at_95_threshold_witness :
    ((((some 95 : Option Nat).getD 0 : Nat) : Rat) ≥ ((100 : Nat) : Rat) * (95 / 100)) ∧
    (stepTick 100 (initState 0) 1 (some 95)).next = Next.stop StopReason.complete := by
  have h : (((some 95 : Option Nat).getD 0 : Nat) : Rat) ≥ ((100 : Nat) : Rat) * (95 / 100) := by
    norm_num
  exact ⟨h, complete_at_95_threshold.1 100 (initState 0) 1 (some 95) h⟩

/-- C1 evaluated at its failing input: expected_size 1000, the artifact
frozen at 920 bytes (92 percent, above the 0.9 fraction) over thirty
ticks spaced 0.5 s apart, i.e. 14.5 s without growth.  The claimed
stagnation exit to STALLED_DONE never happens: the loop consumes every
tick and is still polling, because lines 217-218 refresh last_update_time
on every iteration, so the test current_time - last_update_time > 10 of
line 213 sees only the 0.5 s inter-tick gap. -/
theorem stall_check_never_fires_at_92pct :
    (runMonitor 1000 0 ((List.range 30).map fun k => (((k : Rat) + 1) / 2, some 920))).result =
      none ∧
    (runMonitor 1000 0 ((List.range 30).map fun k => (((k : Rat) + 1) / 2, some 920))).final.lastSize =
      920 := by
  exact ⟨by with_unfolding_all rfl, by with_unfolding_all rfl⟩

/-- C2 evaluated at its failing input: the first tick emits at clock 1000
with percentage 50; the second tick comes 0.2 s later with the percentage
unchanged, so the claimed throttle (at least 0.5 s elapsed or more than
1 point moved) forbids a second emission — yet the loop emits again,
because line 195 subtracts the stored percentage 50 from the clock
reading 1000.2 and compares the result with 0.5. -/
theorem throttle_emits_every_tick :
    (runMonitor 1000 (1999/2) [((1000 : Rat), some 500), ((5001/5 : Rat), some 500)]).events =
      [⟨500, 1000, 50, 0⟩, ⟨500, 1000, 50, 0⟩] ∧
    ((5001/5 : Rat) - 1000 < 1/2) ∧ ((50 : Rat) - 50 = 0) := by
  exact ⟨by with_unfolding_all rfl, by norm_num, by norm_num⟩

/-! Facts about the speed window of lines 183-191. -/

theorem windowPush_length_le (l : List Rat) (x : Rat) (h : l.length ≤ 10) :
    (windowPush l x).length ≤ 10 := by
  unfold windowPush
  split_ifs with hc <;>
    simp only [List.length_drop, List.length_append, List.length_singleton] at hc ⊢ <;>
    omega

theorem windowPush_mem (l : List Rat) (x y : Rat) (hy : y ∈ windowPush l x) :
    y ∈ l ∨ y = x := by
  unfold windowPush at hy
  split_ifs at hy with hc
  · rcases List.mem_append.mp (List.mem_of_mem_drop hy) with h | h
    · exact Or.inl h
    · exact Or.inr (List.mem_singleton.mp h)
  · rcases List.mem_append.mp hy with h | h
    · exact Or.inl h
    · exact Or.inr (List.mem_singleton.mp h)

theorem speedStep_pos_eq (s : MonState) (t : Rat) (cs : Nat)
    (hq : 0 < s.lastSize ∧ 0 < t - s.lastUpdateTime ∧ s.lastSize < cs) :
    speedStep s t cs =
      ((windowPush s.speedSamples (instMbps s.lastSize cs (t - s.lastUpdateTime))).sum /
        (((windowPush s.speedSamples (instMbps s.lastSize cs (t - s.lastUpdateTime))).length : Rat)),
       windowPush s.speedSamples (instMbps s.lastSize cs (t - s.lastUpdateTime))) := by
  unfold speedStep
  rw [if_pos hq]

theorem speedStep_neg_eq (s : MonState) (t : Rat) (cs : Nat)
    (hq : ¬(0 < s.lastSize ∧ 0 < t - s.lastUpdateTime ∧ s.lastSize < cs)) :
    speedStep s t cs = (0, s.speedSamples) := by
  unfold speedStep
  rw [if_neg hq]

theorem instMbps_pos (ls cs : Nat) (td : Rat) (hlt : ls < cs) (htd : 0 < td) :
    0 < instMbps ls cs td := by
  unfold instMbps
  have h1 : (0 : Rat) < (cs : Rat) - (ls : Rat) := by
    rw [sub_pos]
    exact_mod_cast hlt
  exact div_pos (mul_pos (div_pos h1 htd) (by norm_num)) (by norm_num)

/-- C5 counterexample: on the very first tick the observed size grows from
0 to 100 bytes, so the size increased, yet no throughput sample is
appended and the computed speed stays 0 — line 184 also requires
last_size > 0, which excludes growth out of an empty file. -/
theorem first_growth_appends_no_sample :
    (initState 0).lastSize < (some 100 : Option Nat).getD 0 ∧
    (stepTick 1000000 (initState 0) (1/2) (some 100)).samplesAfter = [] ∧
    (stepTick 1000000 (initState 0) (1/2) (some 100)).speedMbps = 0 := by
  exact ⟨by decide, by with_unfolding_all rfl, by with_unfolding_all rfl⟩

/-- C5 as amended: on a tick where the size increased from a positive
previous size with positive elapsed time, the instantaneous sample
(delta bytes times 8 over delta time, in the script's Mbps unit) is pushed
into the trailing window (capped at the last 10 samples) and the computed
smoothed speed is the window's arithmetic mean; on every other tick —
including a growth tick out of size 0 — no sample is appended and the
computed speed is 0.  The speed is never negative (all samples are
positive), and every emitted record carries a non-negative speed. -/
theorem speed_window_mean_nonneg :
    (∀ (expected : Nat) (s : MonState) (t : Rat) (obs : Option Nat),
        (stepTick expected s t obs).speedMbps = (speedStep s t (obs.getD 0)).1 ∧
        (stepTick expected s t obs).samplesAfter = (speedStep s t (obs.getD 0)).2) ∧
    (∀ (s : MonState) (t : Rat) (currentSize : Nat),
        (0 < s.lastSize ∧ 0 < t - s.lastUpdateTime ∧ s.lastSize < currentSize →
          (speedStep s t currentSize).2 =
            windowPush s.speedSamples
              (instMbps s.lastSize currentSize (t - s.lastUpdateTime)) ∧
          (speedStep s t currentSize).1 =
            ((speedStep s t currentSize).2).sum /
              (((speedStep s t currentSize).2).length : Rat)) ∧
        (¬(0 < s.lastSize ∧ 0 < t - s.lastUpdateTime ∧ s.lastSize < currentSize) →
          (speedStep s t currentSize).2 = s.speedSamples ∧
          (speedStep s t currentSize).1 = 0) ∧
        (s.speedSamples.length ≤ 10 → ((speedStep s t currentSize).2).length ≤ 10) ∧
        ((∀ x ∈ s.speedSamples, 0 < x) →
          0 ≤ (speedStep s t currentSize).1 ∧
          ∀ x ∈ (speedStep s t currentSize).2, 0 < x)) ∧
    (∀ (expected : Nat) (t0 : Rat) (ticks : List (Rat × Option Nat)) (ev : ProgressData),
        ev ∈ (runMonitor expected t0 ticks).events → 0 ≤ ev.speedMbps) := by
  refine ⟨fun expected s t obs => ⟨rfl, rfl⟩, ?_, ?_⟩
  · intro s t cs
    by_cases hq : 0 < s.lastSize ∧ 0 < t - s.lastUpdateTime ∧ s.lastSize < cs
    · rw [speedStep_pos_eq s t cs hq]
      refine ⟨fun _ => ⟨rfl, rfl⟩, fun hn => absurd hq hn, ?_, ?_⟩
      · intro hlen
        exact windowPush_length_le _ _ hlen
      · intro hall
        have hwpos : ∀ x ∈ windowPush s.speedSamples
            (instMbps s.lastSize cs (t - s.lastUpdateTime)), 0 < x := by
          intro x hx
          rcases windowPush_mem _ _ _ hx with h | h
          · exact hall x h
          · rw [h]
            exact instMbps_pos _ _ _ hq.2.2 hq.2.1
        refine ⟨?_, hwpos⟩
        exact div_nonneg (List.sum_nonneg fun x hx => le_of_lt (hwpos x hx))
          (Nat.cast_nonneg _)
    · rw [speedStep_neg_eq s t cs hq]
      exact ⟨fun hc => absurd hc hq, fun _ => ⟨rfl, rfl⟩, fun hlen => hlen, fun hall =>
        ⟨le_refl 0, hall⟩⟩
  · intro expected t0 ticks ev hev
    exact (runFrom_events_bounds expected ticks (initState t0) ev hev).2.2

/-- Witness for C5's amended statement: a qualifying growth tick (previous
size 100, current size 300, 2 seconds elapsed) with its hypotheses
discharged concretely. -/
theorem speed_window_mean_nonneg_witness :
    (0 < (MonState.mk 100 0 [] 0).lastSize ∧
      0 < (2 : Rat) - (MonState.mk 100 0 [] 0).lastUpdateTime ∧
      (MonState.mk 100 0 [] 0).lastSize < 300) ∧
    (speedStep ⟨100, 0, [], 0⟩ 2 300).2 =
      windowPush ([] : List Rat) (instMbps 100 300 (2 - 0)) ∧
    (speedStep ⟨100, 0, [], 0⟩ 2 300).1 =
      ((speedStep ⟨100, 0, [], 0⟩ 2 300).2).sum /
        (((speedStep ⟨100, 0, [], 0⟩ 2 300).2).length : Rat) ∧
    0 ≤ (speedStep ⟨100, 0, [], 0⟩ 2 300).1 := by
  have hq : 0 < (MonState.mk 100 0 [] 0).lastSize ∧
      0 < (2 : Rat) - (MonState.mk 100 0 [] 0).lastUpdateTime ∧
      (MonState.mk 100 0 [] 0).lastSize < 300 :=
    ⟨by norm_num, by norm_num, by norm_num⟩
  have h := speed_window_mean_nonneg.2.1 ⟨100, 0, [], 0⟩ 2 300
  obtain ⟨h1, h2⟩ := h.1 hq
  have hpos := (h.2.2.2 (fun x hx => absurd hx (List.not_mem_nil x))).1
  exact ⟨hq, h1, h2, hpos⟩

/-! Facts about get_expected_model_size. -/

theorem approximate_sizes_pos (model : String) : 0 < approximate_sizes model := by
  unfold approximate_sizes
  split_ifs <;> norm_num

/-- C6 counterexample: a successful probe whose content-length header is
the string "0" passes the truthiness test of line 146 and is returned
verbatim, so get_expected_model_size yields 0, not a positive integer
and not the fallback. -/
theorem expected_size_zero_content_length :
    get_expected_model_size "base" (ProbeOutcome.response 200 (some "0")) = 0 ∧
    ¬ (0 < get_expected_model_size "base" (ProbeOutcome.response 200 (some "0"))) := by
  have h : get_expected_model_size "base" (ProbeOutcome.response 200 (some "0")) = 0 := by
    with_unfolding_all rfl
  refine ⟨h, ?_⟩
  rw [h]
  exact lt_irrefl 0

/-- C6 as amended: get_expected_model_size is total (never raises) and
returns the probe's parsed content length whenever the probe succeeds with
status 200 and a non-empty parseable content-length string — including a
non-positive one, which is returned verbatim; every other outcome returns
the static per-model fallback (the 100 MB default for unknown models),
which is always positive.  Hence the result is positive unless the probe
reported a parseable non-positive content length. -/
theorem expected_size_positive_unless_probed_nonpositive
    (model : String) (probe : ProbeOutcome) :
    (probe = ProbeOutcome.error →
      get_expected_model_size model probe = approximate_sizes model) ∧
    (∀ (st : Nat) (cl : Option String), st ≠ 200 →
      get_expected_model_size model (ProbeOutcome.response st cl) =
        approximate_sizes model) ∧
    (get_expected_model_size model (ProbeOutcome.response 200 none) =
      approximate_sizes model) ∧
    (∀ (cl : String) (n : Int), cl.toInt? = some n → cl ≠ "" →
      get_expected_model_size model (ProbeOutcome.response 200 (some cl)) = n) ∧
    (0 < approximate_sizes model) ∧
    (0 < get_expected_model_size model probe ∨
      ∃ cl : String, probe = ProbeOutcome.response 200 (some cl) ∧ cl ≠ "" ∧
        cl.toInt? = some (get_expected_model_size model probe) ∧
        get_expected_model_size model probe ≤ 0) := by
  refine ⟨?_, ?_, ?_, ?_, approximate_sizes_pos model, ?_⟩
  · intro h
    subst h
    rfl
  · intro st cl hst
    simp only [get_expected_model_size]
    rw [if_neg hst]
  · rfl
  · intro cl n htoi hne
    simp only [get_expected_model_size]
    rw [if_true]
    rw [if_pos hne, htoi]
  · rcases probe with _ | ⟨st, cl⟩
    · exact Or.inl (approximate_sizes_pos model)
    · by_cases hst : st = 200
      · subst hst
        rcases cl with _ | s
        · exact Or.inl (approximate_sizes_pos model)
        · by_cases hs : s = ""
          · subst hs
            left
            have hz : get_expected_model_size model (ProbeOutcome.response 200 (some "")) =
                approximate_sizes model := by
              simp only [get_expected_model_size]
              rw [if_true]
              rw [if_neg (fun hc => hc rfl)]
            rw [hz]
            exact approximate_sizes_pos model
          · rcases hti : s.toInt? with _ | n
            · left
              have hz : get_expected_model_size model (ProbeOutcome.response 200 (some s)) =
                  approximate_sizes model := by
                simp only [get_expected_model_size]
                rw [if_true]
                rw [if_pos hs, hti]
              rw [hz]
              exact approximate_sizes_pos model
            · have hval : get_expected_model_size model
                  (ProbeOutcome.response 200 (some s)) = n := by
                simp only [get_expected_model_size]
                rw [if_true]
                rw [if_pos hs, hti]
              rcases le_or_lt n 0 with hn | hn
              · right
                refine ⟨s, rfl, hs, ?_, ?_⟩
                · rw [hval]
                  exact hti
                · rw [hval]
                  exact hn
              · left
                rw [hval]
                exact hn
      · left
        have hz : get_expected_model_size model (ProbeOutcome.response st cl) =
            approximate_sizes model := by
          simp only [get_expected_model_size]
          rw [if_neg hst]
        rw [hz]
        exact approximate_sizes_pos model

/-- Witness for C6's amended statement: a failed probe for the base model
falls back to the static table, a positive value. -/
theorem expected_size_positive_witness :
    get_expected_model_size "base" ProbeOutcome.error = approximate_sizes "base" ∧
    0 < get_expected_model_size "base" ProbeOutcome.error := by
  have h := expected_size_positive_unless_probed_nonpositive "base" ProbeOutcome.error
  refine ⟨h.1 rfl, ?_⟩
  rw [h.1 rfl]
  exact h.2.2.2.2.1

/-- C7: when the artifact file already exists, download_model returns the
short-circuit result of lines 236-245 — downloaded and success true with
the cached size — spawning no monitor thread and performing no size probe;
the outcome does not depend on the probe, fetch or later filesystem inputs
at all, so a second sequential call on the unchanged filesystem returns
the same short-circuit result with again no monitor spawned. -/
theorem download_cached_short_circuit
    (model modelFile : String) (files : String → Option Nat)
    (probe : ProbeOutcome) (fetch : FetchOutcome) (filesAfter : String → Option Nat)
    (sz : Nat) (h : files modelFile = some sz) :
    (download_model model modelFile files probe fetch filesAfter).monitorSpawned = false ∧
    (download_model model modelFile files probe fetch filesAfter).probePerformed = false ∧
    (download_model model modelFile files probe fetch filesAfter).result =
      ⟨model, true, some modelFile, some sz, true, none⟩ ∧
    ∀ (probe2 : ProbeOutcome) (fetch2 : FetchOutcome) (filesAfter2 : String → Option Nat),
      download_model model modelFile files probe2 fetch2 filesAfter2 =
        download_model model modelFile files probe fetch filesAfter := by
  simp [download_model, h]

/-- Witness for C7: a filesystem on which every path exists with size 7. -/
theorem download_cached_short_circuit_witness :
    ((fun _ => some 7 : String → Option Nat) "base.pt" = some 7) ∧
    (download_model "base" "base.pt" (fun _ => some 7) ProbeOutcome.error
        FetchOutcome.ok (fun _ => none)).monitorSpawned = false ∧
    (download_model "base" "base.pt" (fun _ => some 7) ProbeOutcome.error
        FetchOutcome.ok (fun _ => none)).result =
      ⟨"base", true, some "base.pt", some 7, true, none⟩ := by
  have h := download_cached_short_circuit "base" "base.pt" (fun _ => some 7)
    ProbeOutcome.error FetchOutcome.ok (fun _ => none) 7 rfl
  exact ⟨rfl, h.1, h.2.2.1⟩

/-- C8: when the artifact is not cached and the blocking fetch raises, the
exception is converted to a structured DownloadResult (lines 292-307):
success false, downloaded false, error carrying str(e) for a generic
exception and the fixed string "Download interrupted by user" for
KeyboardInterrupt — never propagated as a raised fault (download_model is
total here). -/
theorem download_fetch_exception_structured
    (model modelFile : String) (files : String → Option Nat) (probe : ProbeOutcome)
    (filesAfter : String → Option Nat) (h : files modelFile = none) :
    ((download_model model modelFile files probe FetchOutcome.keyboardInterrupt
        filesAfter).result =
      ⟨model, false, none, none, false, some "Download interrupted by user"⟩) ∧
    (∀ msg : String,
      (download_model model modelFile files probe (FetchOutcome.error msg)
          filesAfter).result =
        ⟨model, false, none, none, false, some msg⟩) := by
  simp [download_model, h]

/-- Witness for C8: an empty filesystem, an interrupted fetch and a
generic network failure. -/
theorem download_fetch_exception_structured_witness :
    ((fun _ => none : String → Option Nat) "base.pt" = none) ∧
    (download_model "base" "base.pt" (fun _ => none) ProbeOutcome.error
        FetchOutcome.keyboardInterrupt (fun _ => none)).result =
      ⟨"base", false, none, none, false, some "Download interrupted by user"⟩ ∧
    (download_model "base" "base.pt" (fun _ => none) ProbeOutcome.error
        (FetchOutcome.error "connection reset") (fun _ => none)).result =
      ⟨"base", false, none, none, false, some "connection reset"⟩ := by
  have h := download_fetch_exception_structured "base" "base.pt" (fun _ => none)
    ProbeOutcome.error (fun _ => none) rfl
  exact ⟨rfl, h.1, h.2 "connection reset"⟩

/-- C9: for any model and any initial filesystem, check_model_status,
delete_model and check_model_status again are all total (no exception for
a model whose artifact path resolves), the final status reports
downloaded false with success true, and delete_model returns the freed
byte count when the artifact was present and the structured
"Model not found" failure when it was absent. -/
theorem status_delete_status_idempotent (model modelFile : String)
    (files : String → Option Nat) :
    (check_model_status model modelFile files).success = true ∧
    (check_model_status model modelFile (delete_model model modelFile files).2).downloaded =
      false ∧
    (check_model_status model modelFile (delete_model model modelFile files).2).success =
      true ∧
    (∀ sz : Nat, files modelFile = some sz →
      (delete_model model modelFile files).1 = ⟨model, true, some sz, true, none⟩) ∧
    (files modelFile = none →
      (delete_model model modelFile files).1 =
        ⟨model, false, none, false, some "Model not found"⟩) := by
  rcases h : files modelFile with _ | sz
  · refine ⟨?_, ?_, ?_, ?_, ?_⟩ <;>
      simp [check_model_status, delete_model, h]
  · refine ⟨?_, ?_, ?_, ?_, ?_⟩ <;>
      simp [check_model_status, delete_model, h]

/-- Witness for C9: both the present-artifact case (every path has size
42) and the absent case (empty filesystem), with the hypotheses
discharged concretely. -/
theorem status_delete_status_idempotent_witness :
    (check_model_status "base" "base.pt"
        (delete_model "base" "base.pt" (fun _ => some 42)).2).downloaded = false ∧
    (delete_model "base" "base.pt" (fun _ => some 42)).1 =
      ⟨"base", true, some 42, true, none⟩ ∧
    (delete_model "base" "base.pt" (fun _ => none)).1 =
      ⟨"base", false, none, false, some "Model not found"⟩ := by
  have h1 := status_delete_status_idempotent "base" "base.pt" (fun _ => some 42)
  have h2 := status_delete_status_idempotent "base" "base.pt" (fun _ => none)
  exact ⟨h1.2.1, h1.2.2.2.1 42 rfl, h2.2.2.2.2 rfl⟩

/-- C10: before entering its polling loop, monitor_download_progress
creates the cache directory (line 167) — the only filesystem write the
function performs: the file map is returned unchanged, every other
directory's status is unchanged, and the polling outcome is exactly the
loop run over the observation samples (each iteration only reads the
artifact's existence and size). -/
theorem monitor_frame_creates_cache_dir_only
    (cacheDir : String) (fsys : FileSystem) (expected : Nat) (t0 : Rat)
    (ticks : List (Rat × Option Nat)) :
    (monitor_download_progress cacheDir fsys expected t0 ticks).1.files = fsys.files ∧
    (monitor_download_progress cacheDir fsys expected t0 ticks).1.dirs cacheDir = true ∧
    (∀ d : String, d ≠ cacheDir →
      (monitor_download_progress cacheDir fsys expected t0 ticks).1.dirs d = fsys.dirs d) ∧
    (monitor_download_progress cacheDir fsys expected t0 ticks).2 =
      runMonitor expected t0 ticks := by
  refine ⟨rfl, ?_, ?_, rfl⟩
  · simp [monitor_download_progress]
  · intro d hd
    simp [monitor_download_progress, hd]

/-- Witness for C10: a concrete empty filesystem, with the inequality
hypothesis discharged for a directory other than the cache directory. -/
theorem monitor_frame_creates_cache_dir_only_witness :
    (monitor_download_progress "cache" ⟨fun _ => none, fun _ => false⟩ 1 0 []).1.dirs
        "cache" = true ∧
    ("other" ≠ "cache") ∧
    (monitor_download_progress "cache" ⟨fun _ => none, fun _ => false⟩ 1 0 []).1.dirs
        "other" = false := by
  have hne : ("other" : String) ≠ "cache" := by decide
  have h := monitor_frame_creates_cache_dir_only "cache"
    ⟨fun _ => none, fun _ => false⟩ 1 0 []
  exact ⟨h.2.1, hne, h.2.2.1 "other" hne⟩

end WhisperBridge
